import Mathlib

/-
Verification of the request authentication and lifecycle layer of mpdsub
(src/server.go) against its natural-language specification.

Modelling conventions:
- Go strings are byte sequences; we embed them as `List Nat` (each entry a
  byte value).  `strBytes` builds concrete byte strings from ASCII Lean
  string literals.
- Go's `url.Values.Get` returns the empty string for an absent parameter,
  so an absent query parameter is modelled as the empty byte string `[]`.
- Go's `type authMethod int` is an integer type with two named constants;
  we embed it as `Int` with constants 0 and 1, so that the behaviour of
  `authenticate` on unrecognized discriminant values is expressible.
-/

namespace Mpdsub

/-- Byte strings, the embedding of Go `string`. -/
abbrev GoStr := List Nat

/-- Bytes of an ASCII Lean string literal, used to write concrete Go strings. -/
def strBytes (s : String) : GoStr :=
  s.data.map Char.toNat

/-- Embedding of `strings.HasPrefix(l, pre)`: does `l` start with `pre`. -/
def listStartsWith : GoStr → GoStr → Bool
  | [], _ => true
  | _ :: _, [] => false
  | a :: as, b :: bs => b == a && listStartsWith as bs

/-- Embedding of Go `encoding/hex.fromHexChar`: value of one hex digit byte. -/
def fromHexChar (c : Nat) : Option Nat :=
  if 48 ≤ c ∧ c ≤ 57 then some (c - 48)
  else if 97 ≤ c ∧ c ≤ 102 then some (c - 97 + 10)
  else if 65 ≤ c ∧ c ≤ 70 then some (c - 65 + 10)
  else none

/-- Embedding of Go `encoding/hex.Decode` as used through `hex.DecodeString`
with the error discarded: decode successive pairs of hex digits, returning the
bytes decoded before the first invalid digit; a trailing odd digit is dropped
(Go reports `ErrLength` after decoding all full pairs, and the caller in
`decodePassword` ignores the error). -/
def hexDecodeGo : GoStr → GoStr
  | c1 :: c2 :: rest =>
    match fromHexChar c1, fromHexChar c2 with
    | some a, some b => (16 * a + b) :: hexDecodeGo rest
    | _, _ => []
  | _ => []

/-- Full hex decoding: `some` exactly when the input is entirely valid
hexadecimal of even length (the spec notion of "valid hexadecimal"). -/
def hexDecodeFull : GoStr → Option GoStr
  | [] => some []
  | c1 :: c2 :: rest =>
    match fromHexChar c1, fromHexChar c2, hexDecodeFull rest with
    | some a, some b, some l => some ((16 * a + b) :: l)
    | _, _, _ => none
  | _ :: [] => none

/-- The marker bytes of the string literal used in `decodePassword`. -/
def encMarker : GoStr := strBytes "enc:"

/-- Embedding of `decodePassword` (src/server.go): if the password starts with
the marker, strip it (drop its 4 bytes, as `strings.TrimPrefix` does) and
hex-decode the remainder, keeping whatever bytes decode before an error;
otherwise return the input verbatim. -/
def decodePassword (p : GoStr) : GoStr :=
  if listStartsWith encMarker p then hexDecodeGo (p.drop 4)
  else p

/-- Auxiliary: when the whole input is valid hex, Go partial decoding agrees
with full decoding. -/
theorem hexDecodeGo_eq_of_full :
    ∀ (s b : GoStr), hexDecodeFull s = some b → hexDecodeGo s = b
  | [], b, h => by
    simp only [hexDecodeFull, Option.some.injEq] at h
    simp [hexDecodeGo, ← h]
  | [_], _, h => by simp [hexDecodeFull] at h
  | c1 :: c2 :: rest, b, h => by
    simp only [hexDecodeFull, hexDecodeGo] at *
    cases h1 : fromHexChar c1 with
    | none => rw [h1] at h; simp at h
    | some a =>
      cases h2 : fromHexChar c2 with
      | none => rw [h1, h2] at h; simp at h
      | some v =>
        cases h3 : hexDecodeFull rest with
        | none => rw [h1, h2, h3] at h; simp at h
        | some l =>
          rw [h1, h2, h3] at h
          simp only [Option.some.injEq] at h
          show (16 * a + v) :: hexDecodeGo rest = b
          rw [← h, hexDecodeGo_eq_of_full rest l h3]

/-! MD5 (RFC 1321), the hash used by the token-salt authentication scheme.
Embeds Go's `crypto/md5` as used by `authenticate`: bytes in, 16 digest bytes
out.  32-bit machine arithmetic is modelled on `Nat` with explicit
reduction modulo 2^32. -/

/-- The 64 sine-derived round constants of MD5. -/
def md5K : List Nat :=
  [0xd76aa478, 0xe8c7b756, 0x242070db, 0xc1bdceee,
   0xf57c0faf, 0x4787c62a, 0xa8304613, 0xfd469501,
   0x698098d8, 0x8b44f7af, 0xffff5bb1, 0x895cd7be,
   0x6b901122, 0xfd987193, 0xa679438e, 0x49b40821,
   0xf61e2562, 0xc040b340, 0x265e5a51, 0xe9b6c7aa,
   0xd62f105d, 0x02441453, 0xd8a1e681, 0xe7d3fbc8,
   0x21e1cde6, 0xc33707d6, 0xf4d50d87, 0x455a14ed,
   0xa9e3e905, 0xfcefa3f8, 0x676f02d9, 0x8d2a4c8a,
   0xfffa3942, 0x8771f681, 0x6d9d6122, 0xfde5380c,
   0xa4beea44, 0x4bdecfa9, 0xf6bb4b60, 0xbebfbc70,
   0x289b7ec6, 0xeaa127fa, 0xd4ef3085, 0x04881d05,
   0xd9d4d039, 0xe6db99e5, 0x1fa27cf8, 0xc4ac5665,
   0xf4292244, 0x432aff97, 0xab9423a7, 0xfc93a039,
   0x655b59c3, 0x8f0ccc92, 0xffeff47d, 0x85845dd1,
   0x6fa87e4f, 0xfe2ce6e0, 0xa3014314, 0x4e0811a1,
   0xf7537e82, 0xbd3af235, 0x2ad7d2bb, 0xeb86d391]

/-- The per-round left-rotation amounts of MD5. -/
def md5S : List Nat :=
  [7, 12, 17, 22, 7, 12, 17, 22, 7, 12, 17, 22, 7, 12, 17, 22,
   5, 9, 14, 20, 5, 9, 14, 20, 5, 9, 14, 20, 5, 9, 14, 20,
   4, 11, 16, 23, 4, 11, 16, 23, 4, 11, 16, 23, 4, 11, 16, 23,
   6, 10, 15, 21, 6, 10, 15, 21, 6, 10, 15, 21, 6, 10, 15, 21]

/-- Left rotation of a 32-bit word. -/
def rotl32 (x s : Nat) : Nat :=
  ((x <<< s) ||| (x >>> (32 - s))) % 4294967296

/-- The nonlinear mixing function of round `i` (bitwise complement is xor
with the 32-bit all-ones mask). -/
def md5F (i b c d : Nat) : Nat :=
  if i < 16 then (b &&& c) ||| ((b ^^^ 4294967295) &&& d)
  else if i < 32 then (d &&& b) ||| ((d ^^^ 4294967295) &&& c)
  else if i < 48 then b ^^^ c ^^^ d
  else c ^^^ (b ||| (d ^^^ 4294967295))

/-- The message-word index used in round `i`. -/
def md5G (i : Nat) : Nat :=
  if i < 16 then i
  else if i < 32 then (5 * i + 1) % 16
  else if i < 48 then (3 * i + 5) % 16
  else (7 * i) % 16

/-- The four 32-bit words of MD5 state. -/
structure MD5State where
  a : Nat
  b : Nat
  c : Nat
  d : Nat
deriving DecidableEq, Repr

/-- One of the 64 rounds applied to a block whose little-endian words are
given by `m`. -/
def md5Step (m : Nat → Nat) (st : MD5State) (i : Nat) : MD5State :=
  let f := (md5F i st.b st.c st.d + st.a + md5K.getD i 0 + m (md5G i)) % 4294967296
  { a := st.d, d := st.c, c := st.b,
    b := (st.b + rotl32 f (md5S.getD i 0)) % 4294967296 }

/-- Little-endian 32-bit word `j` of a 64-byte chunk. -/
def md5Words (chunk : List Nat) (j : Nat) : Nat :=
  chunk.getD (4 * j) 0 + 256 * chunk.getD (4 * j + 1) 0 +
    65536 * chunk.getD (4 * j + 2) 0 + 16777216 * chunk.getD (4 * j + 3) 0

/-- Process one 64-byte chunk: run the 64 rounds and add the result back
into the state. -/
def md5Block (st : MD5State) (chunk : List Nat) : MD5State :=
  let r := (List.range 64).foldl (md5Step (md5Words chunk)) st
  { a := (st.a + r.a) % 4294967296, b := (st.b + r.b) % 4294967296,
    c := (st.c + r.c) % 4294967296, d := (st.d + r.d) % 4294967296 }

/-- Fold the state over `k` successive 64-byte chunks of `m`. -/
def md5Chunks : Nat → List Nat → MD5State → MD5State
  | 0, _, st => st
  | k + 1, m, st => md5Chunks k (m.drop 64) (md5Block st (m.take 64))

/-- The eight little-endian bytes of a 64-bit value. -/
def le64 (v : Nat) : List Nat :=
  [v % 256, v / 256 % 256, v / 65536 % 256, v / 16777216 % 256,
   v / 4294967296 % 256, v / 1099511627776 % 256,
   v / 281474976710656 % 256, v / 72057594037927936 % 256]

/-- The four little-endian bytes of a 32-bit value. -/
def le32 (v : Nat) : List Nat :=
  [v % 256, v / 256 % 256, v / 65536 % 256, v / 16777216 % 256]

/-- MD5 padding: append 0x80, zero bytes up to 56 mod 64, then the 64-bit
little-endian bit length of the message. -/
def md5Pad (m : List Nat) : List Nat :=
  let n := m.length
  m ++ 128 :: List.replicate ((119 - n % 64) % 64) 0 ++
    le64 (8 * n % 18446744073709551616)

/-- The MD5 digest (16 bytes) of a byte string. -/
def md5 (m : List Nat) : List Nat :=
  let p := md5Pad m
  let st := md5Chunks (p.length / 64) p
    { a := 0x67452301, b := 0xefcdab89, c := 0x98badcfe, d := 0x10325476 }
  le32 st.a ++ le32 st.b ++ le32 st.c ++ le32 st.d

/-- Embedding of Go `encoding/hex.EncodeToString`: lowercase hex digits. -/
def hexDigitByte (n : Nat) : Nat := if n < 10 then 48 + n else 87 + n

/-- Lowercase hexadecimal encoding of a byte string, as a byte string. -/
def hexEncode (l : List Nat) : GoStr :=
  l.flatMap (fun b => [hexDigitByte (b / 16), hexDigitByte (b % 16)])

/-! The data model of src/server.go: `Config`, `requestContext`, the
authentication-method discriminant, and the embedded HTTP request. -/

/-- The fields of `Config` relevant to the authentication and lifecycle
layer (src/server.go). -/
structure Config where
  SubsonicUser : GoStr
  SubsonicPassword : GoStr
  MusicDirectory : GoStr
  Verbose : Bool
  Keepalive : Nat
deriving DecidableEq, Repr

/-- Go declares `type authMethod int`; the discriminant is an integer, with
two named constants.  `authMethodPassword` is `iota` = 0. -/
def authMethodPassword : Int := 0

/-- The second `iota` value of the Go `authMethod` enumeration. -/
def authMethodTokenSalt : Int := 1

/-- Embedding of `requestContext` (src/server.go).  Fields left out of a Go
composite literal are zero-valued, i.e. the empty string here. -/
structure requestContext where
  User : GoStr
  Password : GoStr
  Token : GoStr
  Salt : GoStr
  Client : GoStr
  Version : GoStr
  authMethod : Int
deriving DecidableEq, Repr

/-- The query parameters read by `parseRequestContext`.  Go's
`url.Values.Get` returns `""` for an absent key, so `[]` models both an
empty and an absent parameter. -/
structure Query where
  u : GoStr
  c : GoStr
  v : GoStr
  p : GoStr
  t : GoStr
  s : GoStr
deriving DecidableEq, Repr

/-- The empty query: no parameters supplied. -/
def emptyQuery : Query := { u := [], c := [], v := [], p := [], t := [], s := [] }

/-- The parts of an HTTP request visible to this layer.  `urlQuery` embeds
`r.URL.Query()` (parameters of the URL query string); `bodyForm` holds form
parameters carried only in the request body, which `parseRequestContext`
never reads (it calls only `r.URL.Query()`). -/
structure Request where
  method : GoStr
  path : GoStr
  urlQuery : Query
  bodyForm : Query
deriving DecidableEq, Repr

/-- Embedding of the body of `parseRequestContext` after `q := r.URL.Query()`
(src/server.go lines 217-270). -/
def parseQueryContext (q : Query) : Option requestContext :=
  if q.u = [] then none
  else if q.c = [] then none
  else if q.v = [] then none
  else
    let pass := decodePassword q.p
    if pass ≠ [] then
      some { User := q.u, Password := pass, Token := [], Salt := [],
             Client := q.c, Version := q.v, authMethod := authMethodPassword }
    else if q.t = [] then none
    else if q.s = [] then none
    else
      some { User := q.u, Password := [], Token := q.t, Salt := q.s,
             Client := q.c, Version := q.v, authMethod := authMethodTokenSalt }

/-- Embedding of `parseRequestContext` (src/server.go): reads parameters
from the URL query string only. -/
def parseRequestContext (r : Request) : Option requestContext :=
  parseQueryContext r.urlQuery

/-- Embedding of `Server.authenticate` (src/server.go lines 183-201): reject
on user mismatch, then dispatch on the discriminant; the Go `switch` with a
`default` clause rejects every discriminant other than the two constants. -/
def authenticate (cfg : Config) (rctx : requestContext) : Bool :=
  if rctx.User ≠ cfg.SubsonicUser then false
  else if rctx.authMethod = authMethodPassword then
    rctx.Password == cfg.SubsonicPassword
  else if rctx.authMethod = authMethodTokenSalt then
    rctx.Token == hexEncode (md5 (cfg.SubsonicPassword ++ rctx.Salt))
  else false

/-! The per-request pipeline of `ServeHTTP` (src/server.go lines 134-160):
method gate, Connection header, credential parsing, authentication,
dispatch. -/

/-- An HTTP response as written by the handler: status code, the headers of
the response-writer header map, and the body bytes. -/
structure Response where
  status : Nat
  headers : List (GoStr × GoStr)
  body : GoStr
deriving DecidableEq, Repr

/-- Embedding of Go `http.Error(w, msg, code)`: sets a plain-text content
type and a nosniff header, writes the status code and the message followed
by a newline. -/
def httpError (msg : GoStr) (code : Nat) : Response :=
  { status := code
    headers := [(strBytes "Content-Type", strBytes "text/plain; charset=utf-8"),
                (strBytes "X-Content-Type-Options", strBytes "nosniff")]
    body := msg ++ [10] }

/-- The two protocol-level error values used by `ServeHTTP`. -/
inductive APIError where
  | missingParameter
  | unauthorized
deriving DecidableEq, Repr

/-- Modelled from the spec: the bodies written by `writeXML` for
`errMissingParameter` and `errUnauthorized` are defined outside
src/server.go; the spec says each is a structured error body carrying its
own error code, the two being distinguishable. -/
def xmlBody : APIError → GoStr
  | .missingParameter => strBytes "error code 10: missing parameter"
  | .unauthorized => strBytes "error code 40: unauthorized"

/-- Modelled from the spec: `writeXML` (defined outside src/server.go)
writes the error body with HTTP success status 200 and no further headers
of its own. -/
def writeXML (e : APIError) : Response :=
  { status := 200, headers := [], body := xmlBody e }

/-- The header set by `ServeHTTP` before parsing credentials. -/
def connCloseHeader : GoStr × GoStr := (strBytes "Connection", strBytes "close")

/-- Add the already-set `Connection: close` header to a response written
later through the same header map. -/
def withConnClose (resp : Response) : Response :=
  { resp with headers := connCloseHeader :: resp.headers }

/-- Is the request method one of the two methods `ServeHTTP` allows. -/
def methodAllowed (m : GoStr) : Bool :=
  m == strBytes "GET" || m == strBytes "POST"

/-- The control-flow outcome of `ServeHTTP` on one request: which of the
four exits of the function is taken. -/
inductive Outcome where
  | methodNotAllowed
  | missingParameter
  | unauthorized
  | dispatched (rctx : requestContext)
deriving DecidableEq, Repr

/-- Embedding of the control flow of `ServeHTTP` (src/server.go lines
134-160): reject a disallowed method first, then parse credentials, then
authenticate, then dispatch to the route table. -/
def serveOutcome (cfg : Config) (r : Request) : Outcome :=
  if ¬ methodAllowed r.method then .methodNotAllowed
  else
    match parseRequestContext r with
    | none => .missingParameter
    | some rctx =>
      if ¬ authenticate cfg rctx then .unauthorized
      else .dispatched rctx

/-- Embedding of the response written by `ServeHTTP`, parametric in the
route table `handler` (the mux and its route handlers are external
collaborators): the 405 error is written before the Connection header is
set; every later exit writes through a header map already carrying
`Connection: close`. -/
def serveResponse (cfg : Config) (handler : Request → Response) (r : Request) :
    Response :=
  match serveOutcome cfg r with
  | .methodNotAllowed => httpError (strBytes "method not allowed") 405
  | .missingParameter => withConnClose (writeXML .missingParameter)
  | .unauthorized => withConnClose (writeXML .unauthorized)
  | .dispatched _ => withConnClose (handler r)

/-! The background keepalive loop (src/server.go lines 109-124), embedded as
a trace semantics.  Each loop iteration pings, logs on ping error, then
blocks in `select` on cancellation versus the next ticker tick; the input
event list gives the outcome of each successive `select` (an exhausted list
means the loop is still blocked, and the trace so far is returned). -/

/-- Outcome of one `select`: the ticker fired, or the context was
cancelled. -/
inductive KEvent where
  | tick
  | cancel
deriving DecidableEq, Repr

/-- Observable actions of the keepalive loop: a ping (with whether it
succeeded), a logged ping failure, and loop exit. -/
inductive KAction where
  | ping (ok : Bool)
  | logged
  | exited
deriving DecidableEq, Repr

/-- The trace of the keepalive loop started at iteration `i`, where
`pingOk j` tells whether the `j`-th `Ping()` call returns without error and
the event list resolves each successive `select`. -/
def keepaliveRun (pingOk : Nat → Bool) : Nat → List KEvent → List KAction
  | i, events =>
    KAction.ping (pingOk i) ::
      ((if pingOk i then [] else [KAction.logged]) ++
        match events with
        | [] => []
        | KEvent.cancel :: _ => [KAction.exited]
        | KEvent.tick :: rest => keepaliveRun pingOk (i + 1) rest)

/-- Number of `Ping()` calls in a trace. -/
def countPings : List KAction → Nat
  | [] => 0
  | KAction.ping _ :: r => 1 + countPings r
  | _ :: r => countPings r

/-- Number of logged ping failures in a trace. -/
def countLogs : List KAction → Nat
  | [] => 0
  | KAction.logged :: r => 1 + countLogs r
  | _ :: r => countLogs r

/-- Number of ticks delivered before the first cancellation. -/
def ticksBeforeCancel : List KEvent → Nat
  | [] => 0
  | KEvent.cancel :: _ => 0
  | KEvent.tick :: r => 1 + ticksBeforeCancel r

/-- Whether cancellation is ever observed (a cancel event is delivered to
some `select`). -/
def hasCancel : List KEvent → Bool
  | [] => false
  | KEvent.cancel :: _ => true
  | KEvent.tick :: r => hasCancel r

/-- Number of `j` in `[start, start + n)` with `pingOk j = false`. -/
def failCount (pingOk : Nat → Bool) : Nat → Nat → Nat
  | _, 0 => 0
  | start, n + 1 =>
    (if pingOk start then 0 else 1) + failCount pingOk (start + 1) n

/-! Theorems settling the claims. -/

/-- C2 counterexample: `decodePassword "enc:68zz"` starts with the marker and
its remainder `68zz` is not valid hexadecimal, yet the result is `"h"`, not
the empty string — Go keeps the bytes decoded before the error. -/
theorem C2_counterexample :
    listStartsWith encMarker (strBytes "enc:68zz") = true ∧
    hexDecodeFull ((strBytes "enc:68zz").drop 4) = none ∧
    decodePassword (strBytes "enc:68zz") = strBytes "h" ∧
    decodePassword (strBytes "enc:68zz") ≠ [] := by decide

/-- C2 (amended): a password without the `enc:` marker is returned verbatim;
with the marker and a fully valid hex remainder the decoded bytes are
returned; with the marker and invalid hex the bytes decoded before the first
error are returned, which is the empty string when the error is at the first
pair.  In particular the three concrete examples hold. -/
theorem C2_decodePassword :
    (∀ p : GoStr, listStartsWith encMarker p = false → decodePassword p = p) ∧
    (∀ p b : GoStr, listStartsWith encMarker p = true →
        hexDecodeFull (p.drop 4) = some b → decodePassword p = b) ∧
    (∀ p : GoStr, listStartsWith encMarker p = true →
        decodePassword p = hexDecodeGo (p.drop 4)) ∧
    decodePassword (strBytes "enc:68656c6c6f") = strBytes "hello" ∧
    decodePassword (strBytes "hello") = strBytes "hello" ∧
    decodePassword (strBytes "enc:zz") = [] := by
  refine ⟨?_, ?_, ?_, by decide, by decide, by decide⟩
  · intro p h
    simp [decodePassword, h]
  · intro p b h hf
    simp [decodePassword, h, hexDecodeGo_eq_of_full _ _ hf]
  · intro p h
    simp [decodePassword, h]

/-- Witness for C2: the amended theorem applied at the concrete examples. -/
theorem C2_witness :
    decodePassword (strBytes "hello") = strBytes "hello" ∧
    decodePassword (strBytes "enc:68656c6c6f") = strBytes "hello" :=
  ⟨C2_decodePassword.1 (strBytes "hello") (by decide),
   C2_decodePassword.2.1 (strBytes "enc:68656c6c6f") (strBytes "hello")
     (by decide) (by decide)⟩

/-- C4: whenever `u`, `c`, `v` are non-empty and the decoded password is
non-empty, parsing succeeds with a Password-mode context carrying the
decoded password, for every value of `t` and `s` (and of the method, path
and body). -/
theorem C4_password_mode_precedence :
    ∀ (q : Query) (m pa : GoStr) (b : Query),
      q.u ≠ [] → q.c ≠ [] → q.v ≠ [] → decodePassword q.p ≠ [] →
      parseRequestContext { method := m, path := pa, urlQuery := q, bodyForm := b } =
        some { User := q.u, Password := decodePassword q.p, Token := [], Salt := [],
               Client := q.c, Version := q.v, authMethod := authMethodPassword } := by
  intro q m pa b hu hc hv hp
  simp [parseRequestContext, parseQueryContext, hu, hc, hv, hp]

/-- Witness for C4 at a concrete query carrying both a password and a
token-salt pair. -/
theorem C4_witness :
    parseRequestContext
        { method := strBytes "GET", path := strBytes "/rest/ping.view",
          urlQuery := { u := strBytes "joe", c := strBytes "app", v := strBytes "1.15.0",
                        p := strBytes "sesame", t := strBytes "deadbeef", s := strBytes "c19b2d" },
          bodyForm := emptyQuery } =
      some { User := strBytes "joe", Password := decodePassword (strBytes "sesame"),
             Token := [], Salt := [], Client := strBytes "app",
             Version := strBytes "1.15.0", authMethod := authMethodPassword } :=
  C4_password_mode_precedence _ _ _ _ (by decide) (by decide) (by decide) (by decide)

/-- C5: parsing fails when `u`, `c` or `v` is empty; with those present and
an empty decoded password it fails when `t` or `s` is empty and otherwise
succeeds with a TokenSalt-mode context carrying that token and salt. -/
theorem C5_mandatory_params_and_token_mode :
    ∀ (q : Query) (m pa : GoStr) (b : Query),
      ((q.u = [] ∨ q.c = [] ∨ q.v = []) →
        parseRequestContext { method := m, path := pa, urlQuery := q, bodyForm := b } = none) ∧
      (q.u ≠ [] → q.c ≠ [] → q.v ≠ [] → decodePassword q.p = [] →
        (q.t = [] ∨ q.s = []) →
        parseRequestContext { method := m, path := pa, urlQuery := q, bodyForm := b } = none) ∧
      (q.u ≠ [] → q.c ≠ [] → q.v ≠ [] → decodePassword q.p = [] →
        q.t ≠ [] → q.s ≠ [] →
        parseRequestContext { method := m, path := pa, urlQuery := q, bodyForm := b } =
          some { User := q.u, Password := [], Token := q.t, Salt := q.s,
                 Client := q.c, Version := q.v, authMethod := authMethodTokenSalt }) := by
  intro q m pa b
  refine ⟨?_, ?_, ?_⟩
  · rintro (h | h | h) <;> simp [parseRequestContext, parseQueryContext, h]
  · rintro hu hc hv hp (h | h) <;>
      simp [parseRequestContext, parseQueryContext, hu, hc, hv, hp, h]
  · intro hu hc hv hp ht hs
    simp [parseRequestContext, parseQueryContext, hu, hc, hv, hp, ht, hs]

/-- Witness for C5: the three branches of the theorem at concrete queries. -/
theorem C5_witness :
    parseRequestContext
        { method := strBytes "GET", path := [],
          urlQuery := { u := [], c := strBytes "app", v := strBytes "1.15.0",
                        p := strBytes "sesame", t := [], s := [] },
          bodyForm := emptyQuery } = none ∧
    parseRequestContext
        { method := strBytes "GET", path := [],
          urlQuery := { u := strBytes "joe", c := strBytes "app", v := strBytes "1.15.0",
                        p := [], t := strBytes "deadbeef", s := [] },
          bodyForm := emptyQuery } = none ∧
    parseRequestContext
        { method := strBytes "GET", path := [],
          urlQuery := { u := strBytes "joe", c := strBytes "app", v := strBytes "1.15.0",
                        p := [], t := strBytes "deadbeef", s := strBytes "c19b2d" },
          bodyForm := emptyQuery } =
      some { User := strBytes "joe", Password := [], Token := strBytes "deadbeef",
             Salt := strBytes "c19b2d", Client := strBytes "app",
             Version := strBytes "1.15.0", authMethod := authMethodTokenSalt } :=
  ⟨(C5_mandatory_params_and_token_mode _ _ _ _).1 (Or.inl (by decide)),
   (C5_mandatory_params_and_token_mode _ _ _ _).2.1 (by decide) (by decide) (by decide)
     (by decide) (Or.inr (by decide)),
   (C5_mandatory_params_and_token_mode _ _ _ _).2.2 (by decide) (by decide) (by decide)
     (by decide) (by decide) (by decide)⟩

/-- C6: every successfully parsed context has non-empty user, client and
version, and exactly one of a non-empty password or a non-empty token-salt
pair (exclusive or). -/
theorem C6_context_invariant :
    ∀ (r : Request) (rctx : requestContext),
      parseRequestContext r = some rctx →
      (rctx.User ≠ [] ∧ rctx.Client ≠ [] ∧ rctx.Version ≠ []) ∧
      ((rctx.Password ≠ [] ∧ ¬(rctx.Token ≠ [] ∧ rctx.Salt ≠ [])) ∨
       (rctx.Password = [] ∧ (rctx.Token ≠ [] ∧ rctx.Salt ≠ []))) := by
  intro r rctx h
  simp only [parseRequestContext, parseQueryContext] at h
  split_ifs at h with h1 h2 h3 h4 h5 h6
  · cases h
    refine ⟨⟨h1, h2, h3⟩, Or.inl ⟨h4, ?_⟩⟩
    simp
  · cases h
    exact ⟨⟨h1, h2, h3⟩, Or.inr ⟨rfl, h5, h6⟩⟩

/-- Witness for C6: the invariant at a concrete successful parse. -/
theorem C6_witness :
    ((strBytes "sesame" : GoStr) ≠ [] ∧ (strBytes "app" : GoStr) ≠ [] ∧
      (strBytes "1.15.0" : GoStr) ≠ []) ∧
    (((strBytes "sesame" : GoStr) ≠ [] ∧ ¬(([] : GoStr) ≠ [] ∧ ([] : GoStr) ≠ [])) ∨
     ((strBytes "sesame" : GoStr) = [] ∧ (([] : GoStr) ≠ [] ∧ ([] : GoStr) ≠ []))) :=
  C6_context_invariant
    { method := strBytes "GET", path := [],
      urlQuery := { u := strBytes "sesame", c := strBytes "app", v := strBytes "1.15.0",
                    p := strBytes "sesame", t := [], s := [] },
      bodyForm := emptyQuery }
    { User := strBytes "sesame", Password := strBytes "sesame", Token := [], Salt := [],
      Client := strBytes "app", Version := strBytes "1.15.0",
      authMethod := authMethodPassword }
    (by decide)

/-- C1: authentication succeeds exactly when the user matches and either the
discriminant is Password with a byte-equal password, or the discriminant is
TokenSalt with a token equal to the lowercase hex MD5 of the configured
password concatenated with the salt; every other discriminant value is
rejected. -/
theorem C1_authenticate_iff :
    ∀ (cfg : Config) (rctx : requestContext),
      authenticate cfg rctx = true ↔
        (rctx.User = cfg.SubsonicUser ∧
          ((rctx.authMethod = authMethodPassword ∧
              rctx.Password = cfg.SubsonicPassword) ∨
           (rctx.authMethod = authMethodTokenSalt ∧
              rctx.Token = hexEncode (md5 (cfg.SubsonicPassword ++ rctx.Salt))))) := by
  intro cfg rctx
  unfold authenticate
  split_ifs with h1 h2 h3
  · simp [h1]
  · push_neg at h1
    have hne : rctx.authMethod ≠ authMethodTokenSalt := by
      rw [h2]
      simp [authMethodPassword, authMethodTokenSalt]
    simp [h1, h2, hne, authMethodPassword, authMethodTokenSalt]
  · push_neg at h1
    simp [h1, h2, h3, authMethodPassword, authMethodTokenSalt]
  · push_neg at h1
    simp [h1, h2, h3]

/-- A configuration used for concrete instances: user `joe`, password
`sesame`. -/
def cfg0 : Config :=
  { SubsonicUser := strBytes "joe", SubsonicPassword := strBytes "sesame",
    MusicDirectory := strBytes "/srv/music", Verbose := false, Keepalive := 0 }

/-- A route table standing in for the external mux in concrete instances. -/
def handler0 : Request → Response :=
  fun _ => { status := 404, headers := [], body := strBytes "404 page not found" }

/-- A request with a method other than the two allowed ones. -/
def putRequest : Request :=
  { method := strBytes "PUT", path := strBytes "/rest/ping.view",
    urlQuery := emptyQuery, bodyForm := emptyQuery }

/-- C3 counterexample: the 405 method-not-allowed response is written before
`ServeHTTP` sets the Connection header, so it does not carry
`Connection: close`. -/
theorem C3_counterexample :
    (serveResponse cfg0 handler0 putRequest).status = 405 ∧
    connCloseHeader ∉ (serveResponse cfg0 handler0 putRequest).headers := by decide

/-- C3 (amended): every response to a request whose method is one of the two
allowed methods — the missing-parameter response, the unauthorized response
and dispatched-route responses — carries `Connection: close`; the 405
method-not-allowed response alone is written before that header is set and
does not carry it. -/
theorem C3_connection_close :
    ∀ (cfg : Config) (handler : Request → Response) (r : Request),
      methodAllowed r.method = true →
      connCloseHeader ∈ (serveResponse cfg handler r).headers := by
  intro cfg handler r hm
  unfold serveResponse serveOutcome
  rw [hm]
  simp only [Bool.not_true, Bool.false_eq_true, if_false]
  cases parseRequestContext r with
  | none => simp [withConnClose]
  | some rctx =>
    by_cases ha : authenticate cfg rctx <;> simp [ha, withConnClose]

/-- Witness for C3: a GET request with no credentials receives a response
carrying the Connection header. -/
theorem C3_witness :
    connCloseHeader ∈ (serveResponse cfg0 handler0
      { method := strBytes "GET", path := strBytes "/rest/ping.view",
        urlQuery := emptyQuery, bodyForm := emptyQuery }).headers :=
  C3_connection_close cfg0 handler0 _ (by decide)

/-- C7: for an allowed method, a parse failure yields HTTP 200 with the
missing-parameter error body and an authentication failure yields HTTP 200
with the unauthorized error body; the two bodies differ, and in both cases
the outcome is the rejection exit, never the route dispatch, with a
response independent of the route table. -/
theorem C7_rejection_responses :
    ∀ (cfg : Config) (handler : Request → Response) (r : Request),
      methodAllowed r.method = true →
      ((parseRequestContext r = none →
          serveOutcome cfg r = Outcome.missingParameter ∧
          serveResponse cfg handler r = withConnClose (writeXML APIError.missingParameter) ∧
          (serveResponse cfg handler r).status = 200 ∧
          (serveResponse cfg handler r).body = xmlBody APIError.missingParameter) ∧
       (∀ rctx, parseRequestContext r = some rctx → authenticate cfg rctx = false →
          serveOutcome cfg r = Outcome.unauthorized ∧
          serveResponse cfg handler r = withConnClose (writeXML APIError.unauthorized) ∧
          (serveResponse cfg handler r).status = 200 ∧
          (serveResponse cfg handler r).body = xmlBody APIError.unauthorized) ∧
       xmlBody APIError.missingParameter ≠ xmlBody APIError.unauthorized) := by
  intro cfg handler r hm
  refine ⟨?_, ?_, by decide⟩
  · intro hp
    have ho : serveOutcome cfg r = Outcome.missingParameter := by
      unfold serveOutcome
      rw [hm, hp]
      simp
    refine ⟨ho, ?_, ?_, ?_⟩ <;> simp [serveResponse, ho, withConnClose, writeXML]
  · intro rctx hp ha
    have ho : serveOutcome cfg r = Outcome.unauthorized := by
      unfold serveOutcome
      rw [hm, hp]
      simp [ha]
    refine ⟨ho, ?_, ?_, ?_⟩ <;> simp [serveResponse, ho, withConnClose, writeXML]

/-- Witness for C7: a GET request with no credentials gets the
missing-parameter body with status 200, and a GET request with wrong
password gets the unauthorized body with status 200. -/
theorem C7_witness :
    (serveResponse cfg0 handler0
        { method := strBytes "GET", path := strBytes "/rest/ping.view",
          urlQuery := emptyQuery, bodyForm := emptyQuery }).body =
      xmlBody APIError.missingParameter ∧
    (serveResponse cfg0 handler0
        { method := strBytes "GET", path := strBytes "/rest/ping.view",
          urlQuery := { u := strBytes "joe", c := strBytes "app", v := strBytes "1.15.0",
                        p := strBytes "wrong", t := [], s := [] },
          bodyForm := emptyQuery }).status = 200 :=
  ⟨((C7_rejection_responses cfg0 handler0 _ (by decide)).1 (by decide)).2.2.2,
   ((C7_rejection_responses cfg0 handler0 _ (by decide)).2.1
      { User := strBytes "joe", Password := strBytes "wrong", Token := [], Salt := [],
        Client := strBytes "app", Version := strBytes "1.15.0",
        authMethod := authMethodPassword }
      (by decide) (by decide)).2.2.1⟩

/-- C8: a request whose method is neither GET nor POST gets the 405
method-not-allowed response, a constant independent of the configuration,
the credentials and the route table, and the outcome is the method gate,
so neither parsing nor authentication nor any route handler runs. -/
theorem C8_method_gate :
    ∀ (cfg : Config) (handler : Request → Response) (r : Request),
      r.method ≠ strBytes "GET" → r.method ≠ strBytes "POST" →
      serveOutcome cfg r = Outcome.methodNotAllowed ∧
      serveResponse cfg handler r = httpError (strBytes "method not allowed") 405 ∧
      (serveResponse cfg handler r).status = 405 := by
  intro cfg handler r hg hp
  have hm : methodAllowed r.method = false := by
    unfold methodAllowed
    simp [hg, hp]
  have ho : serveOutcome cfg r = Outcome.methodNotAllowed := by
    unfold serveOutcome
    rw [hm]
    simp
  refine ⟨ho, ?_, ?_⟩ <;> simp [serveResponse, ho, httpError]

/-- Witness for C8: the PUT request is rejected with status 405. -/
theorem C8_witness :
    serveResponse cfg0 handler0 putRequest =
      httpError (strBytes "method not allowed") 405 :=
  (C8_method_gate cfg0 handler0 putRequest (by decide) (by decide)).2.1

/-- Auxiliary: the keepalive trace begins with a ping, whatever the events
and the starting iteration. -/
theorem keepaliveRun_head (pingOk : Nat → Bool) (i : Nat) (events : List KEvent) :
    (keepaliveRun pingOk i events).head? = some (KAction.ping (pingOk i)) := by
  cases events with
  | nil => rfl
  | cons e rest => cases e <;> rfl

/-- Auxiliary: the trace contains one ping for the loop entry plus one per
tick delivered before cancellation, for every ping-result oracle. -/
theorem keepaliveRun_pings (pingOk : Nat → Bool) :
    ∀ (events : List KEvent) (i : Nat),
      countPings (keepaliveRun pingOk i events) = ticksBeforeCancel events + 1
  | [], i => by
    cases h : pingOk i <;>
      simp [keepaliveRun, h, countPings, ticksBeforeCancel]
  | KEvent.cancel :: rest, i => by
    cases h : pingOk i <;>
      simp [keepaliveRun, h, countPings, ticksBeforeCancel]
  | KEvent.tick :: rest, i => by
    cases h : pingOk i <;>
      simp [keepaliveRun, h, countPings, ticksBeforeCancel,
        keepaliveRun_pings pingOk rest (i + 1)] <;>
      omega

/-- Auxiliary: the trace logs exactly the ping failures among the pings it
makes. -/
theorem keepaliveRun_logs (pingOk : Nat → Bool) :
    ∀ (events : List KEvent) (i : Nat),
      countLogs (keepaliveRun pingOk i events) =
        failCount pingOk i (ticksBeforeCancel events + 1)
  | [], i => by
    cases h : pingOk i <;>
      simp [keepaliveRun, h, countLogs, ticksBeforeCancel, failCount]
  | KEvent.cancel :: rest, i => by
    cases h : pingOk i <;>
      simp [keepaliveRun, h, countLogs, ticksBeforeCancel, failCount]
  | KEvent.tick :: rest, i => by
    have heq : ticksBeforeCancel (KEvent.tick :: rest) + 1 =
        (ticksBeforeCancel rest + 1) + 1 := by
      simp [ticksBeforeCancel]
      omega
    rw [heq]
    cases h : pingOk i <;>
      simp [keepaliveRun, h, countLogs, failCount,
        keepaliveRun_logs pingOk rest (i + 1)]

/-- Auxiliary: the trace contains the exit action exactly when a
cancellation event is delivered. -/
theorem keepaliveRun_exits (pingOk : Nat → Bool) :
    ∀ (events : List KEvent) (i : Nat),
      KAction.exited ∈ keepaliveRun pingOk i events ↔ hasCancel events = true
  | [], i => by
    cases h : pingOk i <;> simp [keepaliveRun, h, hasCancel]
  | KEvent.cancel :: rest, i => by
    cases h : pingOk i <;> simp [keepaliveRun, h, hasCancel]
  | KEvent.tick :: rest, i => by
    cases h : pingOk i <;>
      simp [keepaliveRun, h, hasCancel, keepaliveRun_exits pingOk rest (i + 1)]

/-- C9: the keepalive loop pings once immediately on start (the trace begins
with a ping before any tick is consumed) and once per subsequent tick; each
failed ping is logged and never shortens the trace — the ping count is
`ticks + 1` for every ping-result oracle — and the loop exits exactly when
cancellation is observed. -/
theorem C9_keepalive_trace :
    ∀ (pingOk : Nat → Bool) (events : List KEvent),
      (keepaliveRun pingOk 0 events).head? = some (KAction.ping (pingOk 0)) ∧
      countPings (keepaliveRun pingOk 0 events) = ticksBeforeCancel events + 1 ∧
      countLogs (keepaliveRun pingOk 0 events) =
        failCount pingOk 0 (ticksBeforeCancel events + 1) ∧
      (KAction.exited ∈ keepaliveRun pingOk 0 events ↔ hasCancel events = true) :=
  fun pingOk events =>
    ⟨keepaliveRun_head pingOk 0 events, keepaliveRun_pings pingOk events 0,
     keepaliveRun_logs pingOk events 0, keepaliveRun_exits pingOk events 0⟩

/-- C10: credential parsing reads only the URL query string — its result is
unchanged by the method, path and body-form parameters — and a request whose
parameters are carried only in the body (empty URL query) fails parsing; in
particular a POST request with an empty URL query reaches the
missing-parameter rejection whatever its body holds. -/
theorem C10_credentials_from_url_query_only :
    (∀ (q b₁ b₂ : Query) (m₁ m₂ pa₁ pa₂ : GoStr),
        parseRequestContext { method := m₁, path := pa₁, urlQuery := q, bodyForm := b₁ } =
          parseRequestContext { method := m₂, path := pa₂, urlQuery := q, bodyForm := b₂ }) ∧
    (∀ (m pa : GoStr) (b : Query),
        parseRequestContext { method := m, path := pa, urlQuery := emptyQuery,
                              bodyForm := b } = none) ∧
    (∀ (cfg : Config) (pa : GoStr) (b : Query),
        serveOutcome cfg { method := strBytes "POST", path := pa, urlQuery := emptyQuery,
                           bodyForm := b } = Outcome.missingParameter) :=
  ⟨fun _ _ _ _ _ _ _ => rfl, fun _ _ _ => rfl, fun _ _ _ => rfl⟩

end Mpdsub
